import Mathlib

/-!
Verification of the tensor shape/stride descriptor
(`runtime/core/portable_type/tensor_impl.cpp`) and the delegate
event-tracer hooks (`runtime/core/event_tracer_hooks_delegate.h`)
of the executorch runtime, as a shallow embedding in Lean 4.

Machine integers (`ssize_t`, `int32_t` sizes and strides) are modelled as
unbounded `Int`; sizes/strides/dim-order buffers are modelled as lists
holding the buffer contents; nullable pointers are modelled as `Option`.
-/

namespace Executorch

/-- The subset of the runtime `Error` enum returned by the code under study:
`Error::Ok`, `Error::Internal`, `Error::NotSupported`. -/
inductive Error
  | Ok
  | Internal
  | NotSupported
  deriving DecidableEq, Repr

/-- The `TensorShapeDynamism` policy enum: `STATIC`, `DYNAMIC_BOUND`,
`DYNAMIC_UNBOUND`. -/
inductive TensorShapeDynamism
  | STATIC
  | DYNAMIC_BOUND
  | DYNAMIC_UNBOUND
  deriving DecidableEq, Repr

/-- Embedding of `compute_numel(sizes, dim)`: starts from 1 and multiplies
the first `dim` entries of the sizes buffer
(`tensor_impl.cpp`, lines 27-33). -/
def compute_numel (sizes : List Int) (dim : Nat) : Int :=
  (sizes.take dim).foldl (· * ·) 1

/-- Checks that `dimOrder` holds a valid permutation of `0..dims-1`:
length `dims` and every index below `dims` present. -/
def validDimOrder (dimOrder : List Nat) (dims : Nat) : Bool :=
  dimOrder.length = dims && (List.range dims).all (fun k => dimOrder.contains k)

/-- Modelled from the spec: the stride assignment of the Layout Converter
(`dim_order_to_stride` lives in `runtime/core/exec_aten/util/dim_order_util.h`,
which is not part of the sources under study). Per the spec, the
physically-innermost axis gets stride 1 and each earlier physical axis's
stride is the product of all faster-varying axes' extents, mapped back into
logical axis order via `dimOrder`: the logical axis `k` sits at physical
position `dimOrder.indexOf k`, and its stride is the product of the extents
of the physically-faster axes `dimOrder[i]` for `i > dimOrder.indexOf k`. -/
def stride_list (sizes : List Int) (dimOrder : List Nat) (dims : Nat) : List Int :=
  (List.range dims).map (fun k =>
    ((dimOrder.drop (dimOrder.indexOf k + 1)).map
      (fun a => sizes.getD a 1)).foldl (· * ·) 1)

/-- Modelled from the spec: the Layout Converter `dim_order_to_stride`
(`runtime/core/exec_aten/util/dim_order_util.h`, not under the sources
under study). Per the spec it is a pure function `(sizes, dimOrder, rank) →
strides` that must reject a `dimOrder` that is not a valid permutation of
`0..rank-1` (reported by the caller as `InternalError`), and otherwise
assigns strides as described at `stride_list`. `none` models the failure. -/
def dim_order_to_stride (sizes : List Int) (dimOrder : List Nat) (dims : Nat) :
    Option (List Int) :=
  if validDimOrder dimOrder dims then some (stride_list sizes dimOrder dims)
  else none

/-- The tensor descriptor state: the fields of `TensorImpl`
(`tensor_impl.cpp`, lines 36-55). Buffers are their contents
(`sizes_`, `strides_`, `dim_order_`), nullable ones wrapped in `Option`;
`data_` is an opaque pointer value; `type_` an opaque scalar-type tag. -/
structure TensorImpl where
  sizes_ : List Int
  dim_order_ : Option (List Nat)
  strides_ : Option (List Int)
  data_ : Nat
  dim_ : Nat
  numel_ : Int
  numel_bound_ : Int
  type_ : Int
  shape_dynamism_ : TensorShapeDynamism
  deriving DecidableEq, Repr

/-- Embedding of the `TensorImpl` constructor (`tensor_impl.cpp`,
lines 36-55): stores the buffer pointers and metadata, computes
`numel_ = compute_numel(sizes, dim)` and `numel_bound_ = numel_`.
The `ET_CHECK_MSG(isValid(type))` is a process-terminating assertion on an
opaque external registry, not a returned error, so it is a precondition
and not part of the state transformation. -/
def TensorImpl.construct (type : Int) (dim : Nat) (sizes : List Int)
    (data : Nat) (dim_order : Option (List Nat)) (strides : Option (List Int))
    (dynamism : TensorShapeDynamism) : TensorImpl :=
  { sizes_ := sizes
    dim_order_ := dim_order
    strides_ := strides
    data_ := data
    dim_ := dim
    numel_ := compute_numel sizes dim
    numel_bound_ := compute_numel sizes dim
    type_ := type
    shape_dynamism_ := dynamism }

/-- Embedding of the shared `DYNAMIC_BOUND` / `DYNAMIC_UNBOUND` case body of
`internal_resize_contiguous` (`tensor_impl.cpp`, lines 92-116): computes the
new numel, checks it against `numel_bound_`, checks `strides_` and
`dim_order_` for null, runs `dim_order_to_stride` into the strides buffer
(writing its first `dim_` entries), then commits `numel_` and copies
`new_sizes` over the first `dim_` entries of the sizes buffer. Every failing
check returns before anything is written. -/
def TensorImpl.resize_dynamic_case (t : TensorImpl) (new_sizes : List Int) :
    Error × TensorImpl :=
  let new_numel := compute_numel new_sizes t.dim_
  if ¬ new_numel ≤ t.numel_bound_ then (Error.NotSupported, t)
  else
    match t.strides_ with
    | none => (Error.Internal, t)
    | some s =>
      match t.dim_order_ with
      | none => (Error.Internal, t)
      | some d =>
        match dim_order_to_stride new_sizes d t.dim_ with
        | none => (Error.Internal, t)
        | some st =>
          (Error.Ok,
            { t with
              numel_ := new_numel
              sizes_ := new_sizes ++ t.sizes_.drop t.dim_
              strides_ := some (st ++ s.drop t.dim_) })

/-- Embedding of `TensorImpl::internal_resize_contiguous`
(`tensor_impl.cpp`, lines 66-119): rank check, rank-0 early return, then
dispatch on the dynamism policy; `STATIC` compares the first `dim_` entries
of the sizes buffer with `new_sizes` and never writes; both dynamic policies
share `resize_dynamic_case` (the C++ `DYNAMIC_BOUND` case falls through to
`DYNAMIC_UNBOUND`). Returns the returned `Error` together with the state
after the call. -/
def TensorImpl.internal_resize_contiguous (t : TensorImpl)
    (new_sizes : List Int) : Error × TensorImpl :=
  if new_sizes.length = t.dim_ then
    if t.dim_ = 0 then (Error.Ok, t)
    else
      match t.shape_dynamism_ with
      | TensorShapeDynamism.STATIC =>
        if t.sizes_.take t.dim_ = new_sizes.take t.dim_ then (Error.Ok, t)
        else (Error.NotSupported, t)
      | TensorShapeDynamism.DYNAMIC_BOUND => t.resize_dynamic_case new_sizes
      | TensorShapeDynamism.DYNAMIC_UNBOUND => t.resize_dynamic_case new_sizes
  else (Error.NotSupported, t)

/-- Embedding of `TensorImpl::nbytes` (`tensor_impl.cpp`, lines 57-59),
with the external `elementSize` registry lookup passed in. -/
def TensorImpl.nbytes (t : TensorImpl) (elementSize : Int → Int) : Int :=
  t.numel_ * elementSize t.type_

/-- Descriptor states reachable by the code under study: freshly constructed
descriptors, and the state after any `internal_resize_contiguous` call
(failed calls leave the state unchanged, so including them only widens the
set). -/
inductive Reachable : TensorImpl → Prop
  | construct (type : Int) (dim : Nat) (sizes : List Int) (data : Nat)
      (dim_order : Option (List Nat)) (strides : Option (List Int))
      (dynamism : TensorShapeDynamism) :
      Reachable (TensorImpl.construct type dim sizes data dim_order strides dynamism)
  | resize (t : TensorImpl) (new_sizes : List Int) (ht : Reachable t) :
      Reachable (t.internal_resize_contiguous new_sizes).2

/-- Modelled from the spec: `EventTracerEntry`, the event token returned by
`startDelegateEvent` (declared in `runtime/core/event_tracer.h`, which is not
part of the sources under study); only its default-constructed value is
produced by the hooks under study, so it is modelled as an opaque token. -/
structure EventTracerEntry where
  token : Nat
  deriving DecidableEq, Repr

/-- The value `EventTracerEntry()` default-constructs to. -/
def EventTracerEntry.defaultEntry : EventTracerEntry := ⟨0⟩

/-- Modelled from the spec: the `EventTracer` interface
(`runtime/core/event_tracer.h`, not part of the sources under study). The
spec's instrumentation facility exposes `startDelegateEvent(name, id) → token`,
`endDelegateEvent(token, metadata, length)`,
`logDelegateEvent(name, id, startTime, endTime, metadata, length)` and a typed
`logDelegateOutput(name, id, value)`; it is modelled as a record of
state-transforming methods over an abstract tracer state `σ`, with logged
output values of an arbitrary type `T`. A nullable `const char*` name is an
`Option String`, a metadata buffer an `Option (List Nat)` of bytes. -/
structure EventTracerMethods (σ : Type) (T : Type) where
  start_profiling_delegate : σ → Option String → Nat → EventTracerEntry × σ
  end_profiling_delegate : σ → EventTracerEntry → Option (List Nat) → Nat → σ
  log_profiling_delegate : σ → Option String → Nat → Nat → Nat → Option (List Nat) → Nat → σ
  log_intermediate_output_delegate : σ → Option String → Nat → T → σ

/-- Embedding of `event_tracer_start_profiling_delegate`
(`event_tracer_hooks_delegate.h`, lines 50-64): when instrumentation is
compiled in (`enabled`, the `ET_EVENT_TRACER_ENABLED` flag) and the tracer
pointer is non-null, forwards to `EventTracer::start_profiling_delegate`;
otherwise returns a default-constructed `EventTracerEntry` and touches no
state. The result pairs the returned entry with the tracer state after the
call. -/
def event_tracer_start_profiling_delegate {σ T : Type} (enabled : Bool)
    (m : EventTracerMethods σ T) (event_tracer : Option σ)
    (name : Option String) (delegate_debug_id : Nat) :
    EventTracerEntry × Option σ :=
  if enabled then
    match event_tracer with
    | some st =>
      let r := m.start_profiling_delegate st name delegate_debug_id
      (r.1, some r.2)
    | none => (EventTracerEntry.defaultEntry, event_tracer)
  else (EventTracerEntry.defaultEntry, event_tracer)

/-- Embedding of `event_tracer_end_profiling_delegate`
(`event_tracer_hooks_delegate.h`, lines 81-96): forwards to
`EventTracer::end_profiling_delegate` when enabled and non-null, otherwise a
no-op. Returns the tracer state after the call. -/
def event_tracer_end_profiling_delegate {σ T : Type} (enabled : Bool)
    (m : EventTracerMethods σ T) (event_tracer : Option σ)
    (entry : EventTracerEntry) (metadata : Option (List Nat))
    (metadata_len : Nat) : Option σ :=
  if enabled then
    match event_tracer with
    | some st => some (m.end_profiling_delegate st entry metadata metadata_len)
    | none => event_tracer
  else event_tracer

/-- Embedding of `event_tracer_log_profiling_delegate`
(`event_tracer_hooks_delegate.h`, lines 125-146): forwards to
`EventTracer::log_profiling_delegate` when enabled and non-null, otherwise a
no-op. Returns the tracer state after the call. -/
def event_tracer_log_profiling_delegate {σ T : Type} (enabled : Bool)
    (m : EventTracerMethods σ T) (event_tracer : Option σ)
    (name : Option String) (delegate_debug_id : Nat)
    (start_time end_time : Nat) (metadata : Option (List Nat))
    (metadata_len : Nat) : Option σ :=
  if enabled then
    match event_tracer with
    | some st =>
      some (m.log_profiling_delegate st name delegate_debug_id start_time
        end_time metadata metadata_len)
    | none => event_tracer
  else event_tracer

/-- Embedding of the templated `event_tracer_log_output_delegate`
(`event_tracer_hooks_delegate.h`, lines 167-188): forwards to
`EventTracer::log_intermediate_output_delegate` when enabled and non-null,
otherwise a no-op (the `static_assert` restricting `T` to the closed set of
loggable kinds is a compile-time check, so `T` stays a type parameter here).
Returns the tracer state after the call. -/
def event_tracer_log_output_delegate {σ T : Type} (enabled : Bool)
    (m : EventTracerMethods σ T) (event_tracer : Option σ)
    (name : Option String) (delegate_debug_id : Nat) (output : T) : Option σ :=
  if enabled then
    match event_tracer with
    | some st =>
      some (m.log_intermediate_output_delegate st name delegate_debug_id output)
    | none => event_tracer
  else event_tracer

/-- A rank-2 dynamic descriptor from the spec's worked example (§8):
`sizes = [3,4]`, row-major dim-order, capacity 12. -/
def sampleDyn : TensorImpl :=
  TensorImpl.construct 0 2 [3, 4] 0 (some [0, 1]) (some [4, 1])
    TensorShapeDynamism.DYNAMIC_BOUND

/-- A rank-1 dynamic descriptor with `sizes = [2]`, capacity 2. -/
def sampleDyn1 : TensorImpl :=
  TensorImpl.construct 0 1 [2] 0 (some [0]) (some [1])
    TensorShapeDynamism.DYNAMIC_BOUND

/-- A rank-1 static descriptor with `sizes = [2]`. -/
def sampleStatic : TensorImpl :=
  TensorImpl.construct 0 1 [2] 0 none none TensorShapeDynamism.STATIC

/-- A rank-0 (scalar) static descriptor. -/
def sampleScalar : TensorImpl :=
  TensorImpl.construct 0 0 [] 0 none none TensorShapeDynamism.STATIC

/-- The strides produced by the Layout Converter always have length `dims`. -/
theorem stride_list_length (sizes : List Int) (dimOrder : List Nat) (dims : Nat) :
    (stride_list sizes dimOrder dims).length = dims := by
  simp [stride_list]

/-- Case analysis on the shared dynamic resize body: either some check failed
and the call returns a non-`Ok` error with the state untouched, or every
check passed and the call commits the new numel, sizes and strides. -/
theorem resize_dynamic_case_spec (t : TensorImpl) (ns : List Int) :
    ((t.resize_dynamic_case ns).1 ≠ Error.Ok ∧ (t.resize_dynamic_case ns).2 = t) ∨
    (compute_numel ns t.dim_ ≤ t.numel_bound_ ∧
      ∃ s d, t.strides_ = some s ∧ t.dim_order_ = some d ∧
        validDimOrder d t.dim_ = true ∧
        t.resize_dynamic_case ns =
          (Error.Ok,
            { t with
              numel_ := compute_numel ns t.dim_
              sizes_ := ns ++ t.sizes_.drop t.dim_
              strides_ := some (stride_list ns d t.dim_ ++ s.drop t.dim_) })) := by
  by_cases hnum : compute_numel ns t.dim_ ≤ t.numel_bound_
  · rcases hs : t.strides_ with _ | s
    · left
      constructor <;> simp [TensorImpl.resize_dynamic_case, hs, hnum]
    · rcases hd : t.dim_order_ with _ | d
      · left
        constructor <;> simp [TensorImpl.resize_dynamic_case, hs, hd, hnum]
      · by_cases hv : validDimOrder d t.dim_ = true
        · right
          refine ⟨hnum, s, d, rfl, rfl, hv, ?_⟩
          simp [TensorImpl.resize_dynamic_case, hs, hd, hnum,
            dim_order_to_stride, hv]
        · left
          constructor <;>
            simp [TensorImpl.resize_dynamic_case, hs, hd, hnum,
              dim_order_to_stride, hv]
  · left
    constructor <;> simp [TensorImpl.resize_dynamic_case, hnum]

/-- Any `internal_resize_contiguous` call that does not return `Ok` leaves
the descriptor state unchanged. -/
theorem resize_error_state_unchanged (t : TensorImpl) (ns : List Int)
    (h : (t.internal_resize_contiguous ns).1 ≠ Error.Ok) :
    (t.internal_resize_contiguous ns).2 = t := by
  by_cases hlen : ns.length = t.dim_
  · by_cases hdim : t.dim_ = 0
    · simp [TensorImpl.internal_resize_contiguous, hlen, hdim]
    · rcases hpol : t.shape_dynamism_ with _ | _ | _
      · by_cases heq : t.sizes_.take t.dim_ = ns.take t.dim_ <;>
          simp [TensorImpl.internal_resize_contiguous, hlen, hdim, hpol, heq]
      · rcases resize_dynamic_case_spec t ns with ⟨_, h2⟩ | ⟨_, s, d, _, _, _, hcommit⟩
        · simpa [TensorImpl.internal_resize_contiguous, hlen, hdim, hpol] using h2
        · exact absurd (by simp [TensorImpl.internal_resize_contiguous,
            hlen, hdim, hpol, hcommit]) h
      · rcases resize_dynamic_case_spec t ns with ⟨_, h2⟩ | ⟨_, s, d, _, _, _, hcommit⟩
        · simpa [TensorImpl.internal_resize_contiguous, hlen, hdim, hpol] using h2
        · exact absurd (by simp [TensorImpl.internal_resize_contiguous,
            hlen, hdim, hpol, hcommit]) h
  · simp [TensorImpl.internal_resize_contiguous, hlen]

/-- When the rank check passes, the rank is positive and the policy is one of
the two dynamic ones, `internal_resize_contiguous` is exactly the shared
dynamic case body. -/
theorem resize_eq_dynamic_case (t : TensorImpl) (ns : List Int)
    (hlen : ns.length = t.dim_) (hdim : t.dim_ ≠ 0)
    (hpol : t.shape_dynamism_ = TensorShapeDynamism.DYNAMIC_BOUND ∨
      t.shape_dynamism_ = TensorShapeDynamism.DYNAMIC_UNBOUND) :
    t.internal_resize_contiguous ns = t.resize_dynamic_case ns := by
  rcases hpol with h | h <;>
    simp [TensorImpl.internal_resize_contiguous, hlen, hdim, h]

/-- On a rank-0 descriptor every resize call leaves the state unchanged:
both the rank-mismatch branch and the scalar early-return branch return the
descriptor as is. -/
theorem resize_rank0_state (t : TensorImpl) (ns : List Int)
    (hdim : t.dim_ = 0) :
    (t.internal_resize_contiguous ns).2 = t := by
  by_cases hlen : ns.length = t.dim_
  · simp [TensorImpl.internal_resize_contiguous, hlen, hdim]
  · simp [TensorImpl.internal_resize_contiguous, hlen]

/-- The dynamic case body never changes rank, capacity, element type, data
pointer, dim-order pointer/contents, or the policy. -/
theorem resize_dynamic_case_frame (t : TensorImpl) (ns : List Int) :
    (t.resize_dynamic_case ns).2.dim_ = t.dim_ ∧
    (t.resize_dynamic_case ns).2.numel_bound_ = t.numel_bound_ ∧
    (t.resize_dynamic_case ns).2.type_ = t.type_ ∧
    (t.resize_dynamic_case ns).2.data_ = t.data_ ∧
    (t.resize_dynamic_case ns).2.dim_order_ = t.dim_order_ ∧
    (t.resize_dynamic_case ns).2.shape_dynamism_ = t.shape_dynamism_ := by
  rcases resize_dynamic_case_spec t ns with ⟨_, h2⟩ | ⟨_, s, d, _, _, _, hcommit⟩
  · rw [h2]
    exact ⟨rfl, rfl, rfl, rfl, rfl, rfl⟩
  · rw [hcommit]
    exact ⟨rfl, rfl, rfl, rfl, rfl, rfl⟩

/-- No `internal_resize_contiguous` call, whatever its policy, input or
outcome, changes rank, capacity, element type, data pointer, dim-order
pointer/contents, or the policy. -/
theorem resize_frame (t : TensorImpl) (ns : List Int) :
    (t.internal_resize_contiguous ns).2.dim_ = t.dim_ ∧
    (t.internal_resize_contiguous ns).2.numel_bound_ = t.numel_bound_ ∧
    (t.internal_resize_contiguous ns).2.type_ = t.type_ ∧
    (t.internal_resize_contiguous ns).2.data_ = t.data_ ∧
    (t.internal_resize_contiguous ns).2.dim_order_ = t.dim_order_ ∧
    (t.internal_resize_contiguous ns).2.shape_dynamism_ = t.shape_dynamism_ := by
  by_cases hlen : ns.length = t.dim_
  · by_cases hdim : t.dim_ = 0
    · simp [TensorImpl.internal_resize_contiguous, hlen, hdim]
    · rcases hpol : t.shape_dynamism_ with _ | _ | _
      · by_cases heq : t.sizes_.take t.dim_ = ns.take t.dim_ <;>
          simp [TensorImpl.internal_resize_contiguous, hlen, hdim, hpol, heq]
      · rw [resize_eq_dynamic_case t ns hlen hdim (Or.inl hpol)]
        have h := resize_dynamic_case_frame t ns
        rw [hpol] at h
        exact h
      · rw [resize_eq_dynamic_case t ns hlen hdim (Or.inr hpol)]
        have h := resize_dynamic_case_frame t ns
        rw [hpol] at h
        exact h
  · simp [TensorImpl.internal_resize_contiguous, hlen]

/-- A successful dynamic resize on a positive-rank descriptor has passed
every check and commits exactly the new numel, the new sizes over the first
`dim_` entries of the sizes buffer, and the recomputed strides over the
first `dim_` entries of the strides buffer. -/
theorem resize_ok_dynamic_state (t : TensorImpl) (ns : List Int)
    (hpol : t.shape_dynamism_ = TensorShapeDynamism.DYNAMIC_BOUND ∨
      t.shape_dynamism_ = TensorShapeDynamism.DYNAMIC_UNBOUND)
    (hdim : t.dim_ ≠ 0)
    (hok : (t.internal_resize_contiguous ns).1 = Error.Ok) :
    ns.length = t.dim_ ∧
    compute_numel ns t.dim_ ≤ t.numel_bound_ ∧
    ∃ s d, t.strides_ = some s ∧ t.dim_order_ = some d ∧
      validDimOrder d t.dim_ = true ∧
      (t.internal_resize_contiguous ns).2 =
        { t with
          numel_ := compute_numel ns t.dim_
          sizes_ := ns ++ t.sizes_.drop t.dim_
          strides_ := some (stride_list ns d t.dim_ ++ s.drop t.dim_) } := by
  by_cases hlen : ns.length = t.dim_
  · rw [resize_eq_dynamic_case t ns hlen hdim hpol] at hok ⊢
    rcases resize_dynamic_case_spec t ns with ⟨h1, _⟩ | ⟨h1, s, d, hs, hd, hv, hcommit⟩
    · exact absurd hok h1
    · exact ⟨hlen, h1, s, d, hs, hd, hv, by rw [hcommit]⟩
  · exact absurd hok (by simp [TensorImpl.internal_resize_contiguous, hlen])

/-- With non-null strides and dim-order buffers and a valid dim-order
permutation, the dynamic case body succeeds exactly when the new numel fits
the capacity, and reports `NotSupported` when it does not. -/
theorem resize_dynamic_case_ok_iff (t : TensorImpl) (ns s : List Int)
    (d : List Nat) (hs : t.strides_ = some s) (hd : t.dim_order_ = some d)
    (hv : validDimOrder d t.dim_ = true) :
    ((t.resize_dynamic_case ns).1 = Error.Ok ↔
      compute_numel ns t.dim_ ≤ t.numel_bound_) ∧
    (¬ compute_numel ns t.dim_ ≤ t.numel_bound_ →
      (t.resize_dynamic_case ns).1 = Error.NotSupported) := by
  by_cases hnum : compute_numel ns t.dim_ ≤ t.numel_bound_ <;>
    simp [TensorImpl.resize_dynamic_case, hs, hd, dim_order_to_stride, hv, hnum]

/-- A `STATIC` descriptor is never mutated by `internal_resize_contiguous`,
whether the call succeeds or fails. -/
theorem resize_static_state (t : TensorImpl) (ns : List Int)
    (hpol : t.shape_dynamism_ = TensorShapeDynamism.STATIC) :
    (t.internal_resize_contiguous ns).2 = t := by
  by_cases hlen : ns.length = t.dim_
  · by_cases hdim : t.dim_ = 0
    · simp [TensorImpl.internal_resize_contiguous, hlen, hdim]
    · by_cases heq : t.sizes_.take t.dim_ = ns.take t.dim_ <;>
        simp [TensorImpl.internal_resize_contiguous, hlen, hdim, hpol, heq]
  · simp [TensorImpl.internal_resize_contiguous, hlen]

/-- Folding multiplication over nonnegative integers from a nonnegative
accumulator stays nonnegative. -/
theorem foldl_mul_nonneg (l : List Int) (a : Int) (ha : 0 ≤ a)
    (h : ∀ x ∈ l, 0 ≤ x) : 0 ≤ l.foldl (· * ·) a := by
  induction l generalizing a with
  | nil => simpa using ha
  | cons x xs ih =>
    simp only [List.foldl_cons]
    exact ih (a * x) (mul_nonneg ha (h x (List.mem_cons_self x xs)))
      (fun y hy => h y (List.mem_cons_of_mem x hy))

/-- `compute_numel` over nonnegative sizes is nonnegative. -/
theorem compute_numel_nonneg (sizes : List Int) (dim : Nat)
    (h : ∀ x ∈ sizes, 0 ≤ x) : 0 ≤ compute_numel sizes dim :=
  foldl_mul_nonneg _ 1 (by decide)
    (fun x hx => h x (List.take_subset dim sizes hx))

/-- Every `internal_resize_contiguous` call preserves the coherence between
the stored numel and the product of the stored sizes over the rank. -/
theorem resize_preserves_numel_coherent (t : TensorImpl) (ns : List Int)
    (h : t.numel_ = compute_numel t.sizes_ t.dim_) :
    (t.internal_resize_contiguous ns).2.numel_ =
      compute_numel (t.internal_resize_contiguous ns).2.sizes_
        (t.internal_resize_contiguous ns).2.dim_ := by
  by_cases hok : (t.internal_resize_contiguous ns).1 = Error.Ok
  · by_cases hdim : t.dim_ = 0
    · rw [resize_rank0_state t ns hdim]
      exact h
    · rcases hpol : t.shape_dynamism_ with _ | _ | _
      · rw [resize_static_state t ns hpol]
        exact h
      · rcases resize_ok_dynamic_state t ns (Or.inl hpol) hdim hok with
          ⟨hlen, _, s, d, _, _, _, hstate⟩
        rw [hstate]
        show compute_numel ns t.dim_ =
          compute_numel (ns ++ t.sizes_.drop t.dim_) t.dim_
        unfold compute_numel
        rw [List.take_left' hlen, ← hlen, List.take_length]
      · rcases resize_ok_dynamic_state t ns (Or.inr hpol) hdim hok with
          ⟨hlen, _, s, d, _, _, _, hstate⟩
        rw [hstate]
        show compute_numel ns t.dim_ =
          compute_numel (ns ++ t.sizes_.drop t.dim_) t.dim_
        unfold compute_numel
        rw [List.take_left' hlen, ← hlen, List.take_length]
  · rw [resize_error_state_unchanged t ns hok]
    exact h

/-- Claim C1: for every descriptor with policy `DYNAMIC_BOUND` or
`DYNAMIC_UNBOUND`, positive rank, non-null strides and dim-order buffers and
a valid dim-order permutation, a resize whose new-sizes length equals the
rank succeeds if and only if the product of the new sizes is at most the
capacity `numel_bound_`; in particular a resize to exactly the capacity
succeeds, and one whose product exceeds the capacity fails with the
`NotSupported` error (`UnsupportedResize`). -/
theorem C1_dynamic_resize_ok_iff_capacity (t : TensorImpl) (ns s : List Int)
    (d : List Nat)
    (hpol : t.shape_dynamism_ = TensorShapeDynamism.DYNAMIC_BOUND ∨
      t.shape_dynamism_ = TensorShapeDynamism.DYNAMIC_UNBOUND)
    (hdim : 0 < t.dim_)
    (hs : t.strides_ = some s) (hd : t.dim_order_ = some d)
    (hv : validDimOrder d t.dim_ = true)
    (hlen : ns.length = t.dim_) :
    ((t.internal_resize_contiguous ns).1 = Error.Ok ↔
      compute_numel ns t.dim_ ≤ t.numel_bound_) ∧
    (¬ compute_numel ns t.dim_ ≤ t.numel_bound_ →
      (t.internal_resize_contiguous ns).1 = Error.NotSupported) := by
  rw [resize_eq_dynamic_case t ns hlen (Nat.pos_iff_ne_zero.mp hdim) hpol]
  exact resize_dynamic_case_ok_iff t ns s d hs hd hv

/-- Witness for C1 on the spec's worked example: capacity 12, resize to
`[2, 4]` (8 elements). -/
theorem C1_dynamic_resize_ok_iff_capacity_witness :
    ((sampleDyn.internal_resize_contiguous [2, 4]).1 = Error.Ok ↔
      compute_numel [2, 4] sampleDyn.dim_ ≤ sampleDyn.numel_bound_) ∧
    (¬ compute_numel [2, 4] sampleDyn.dim_ ≤ sampleDyn.numel_bound_ →
      (sampleDyn.internal_resize_contiguous [2, 4]).1 = Error.NotSupported) :=
  C1_dynamic_resize_ok_iff_capacity sampleDyn [2, 4] [4, 1] [0, 1]
    (Or.inl rfl) (by decide) rfl rfl (by decide) (by decide)

/-- Claim C2: every `internal_resize_contiguous` call that fails (for any
reason, including a failure of the layout-conversion step) leaves the whole
descriptor state, in particular sizes, strides and numel, exactly as it was
before the call: no partial update is observable. -/
theorem C2_failed_resize_is_atomic (t : TensorImpl) (ns : List Int)
    (h : (t.internal_resize_contiguous ns).1 ≠ Error.Ok) :
    (t.internal_resize_contiguous ns).2 = t :=
  resize_error_state_unchanged t ns h

/-- Witness for C2: the spec's worked example, a capacity-exceeding resize
to `[3, 5]` (15 > 12) leaves the descriptor unchanged. -/
theorem C2_failed_resize_is_atomic_witness :
    (sampleDyn.internal_resize_contiguous [3, 5]).2 = sampleDyn :=
  C2_failed_resize_is_atomic sampleDyn [3, 5] (by decide)

/-- Claim C3 counterexample: the claim says a rank-mismatched resize fails
with a `RankMismatch` error value distinct from the `UnsupportedResize`
error returned for policy violations, but the code returns the same
`Error::NotSupported` value in both situations: a rank-2 resize of a rank-1
static descriptor and an equal-rank shape change of the same static
descriptor both return `NotSupported`. -/
theorem C3_counterexample_same_error_value :
    (sampleStatic.internal_resize_contiguous [2, 2]).1 = Error.NotSupported ∧
    (sampleStatic.internal_resize_contiguous [3]).1 = Error.NotSupported ∧
    (sampleStatic.internal_resize_contiguous [2, 2]).1 =
      (sampleStatic.internal_resize_contiguous [3]).1 := by
  decide

/-- Claim C3 (amended): for every descriptor and every `newSizes` whose
length differs from the rank, the resize fails with `NotSupported` — the
same error value the code returns for policy violations; the code does not
distinguish a `RankMismatch` error from `UnsupportedResize`. -/
theorem C3_rank_mismatch_fails (t : TensorImpl) (ns : List Int)
    (h : ns.length ≠ t.dim_) :
    t.internal_resize_contiguous ns = (Error.NotSupported, t) := by
  simp [TensorImpl.internal_resize_contiguous, h]

/-- Witness for amended C3: a rank-2 resize of a rank-1 descriptor. -/
theorem C3_rank_mismatch_fails_witness :
    sampleDyn1.internal_resize_contiguous [2, 2] =
      (Error.NotSupported, sampleDyn1) :=
  C3_rank_mismatch_fails sampleDyn1 [2, 2] (by decide)

/-- Claim C4: for every descriptor reachable by construction followed by any
sequence of resize calls, the stored numel equals the product of the stored
sizes over indices `0..rank` (the empty product, rank 0, giving 1). -/
theorem C4_numel_eq_product_of_sizes (t : TensorImpl) (h : Reachable t) :
    t.numel_ = compute_numel t.sizes_ t.dim_ := by
  induction h with
  | construct type dim sizes data dim_order strides dynamism => rfl
  | resize t ns ht ih => exact resize_preserves_numel_coherent t ns ih

/-- Witness for C4: the worked-example descriptor after a successful resize
to `[2, 4]`. -/
theorem C4_numel_eq_product_of_sizes_witness :
    (sampleDyn.internal_resize_contiguous [2, 4]).2.numel_ =
      compute_numel (sampleDyn.internal_resize_contiguous [2, 4]).2.sizes_
        (sampleDyn.internal_resize_contiguous [2, 4]).2.dim_ :=
  C4_numel_eq_product_of_sizes _
    (Reachable.resize sampleDyn [2, 4]
      (Reachable.construct 0 2 [3, 4] 0 (some [0, 1]) (some [4, 1])
        TensorShapeDynamism.DYNAMIC_BOUND))

/-- Claim C5: for every `STATIC` descriptor of positive rank and every
`newSizes` of matching length, a resize to the current sizes succeeds and
mutates nothing (strides included), and a resize to any different shape of
equal rank fails with `NotSupported` (`UnsupportedResize`), also mutating
nothing. -/
theorem C5_static_resize_same_or_fail (t : TensorImpl) (ns : List Int)
    (hpol : t.shape_dynamism_ = TensorShapeDynamism.STATIC)
    (hdim : 0 < t.dim_) (hlen : ns.length = t.dim_) :
    (t.sizes_.take t.dim_ = ns →
      t.internal_resize_contiguous ns = (Error.Ok, t)) ∧
    (t.sizes_.take t.dim_ ≠ ns →
      t.internal_resize_contiguous ns = (Error.NotSupported, t)) := by
  have hdim' : t.dim_ ≠ 0 := Nat.pos_iff_ne_zero.mp hdim
  have hns : ns.take t.dim_ = ns := by rw [← hlen, List.take_length]
  constructor
  · intro he
    simp [TensorImpl.internal_resize_contiguous, hlen, hdim', hpol, hns, he]
  · intro he
    simp [TensorImpl.internal_resize_contiguous, hlen, hdim', hpol, hns, he]

/-- Witness for C5: resizing the static `[2]` descriptor to `[2]` succeeds
and mutates nothing. -/
theorem C5_static_resize_same_or_fail_witness :
    sampleStatic.internal_resize_contiguous [2] = (Error.Ok, sampleStatic) :=
  (C5_static_resize_same_or_fail sampleStatic [2] rfl (by decide)
    (by decide)).1 (by decide)

/-- Claim C6 counterexample: the claim says `0 ≤ elementCount ≤ capacity` is
preserved by every resize for every `newSizes` input, but a resize of a
dynamic rank-1 descriptor (capacity 2) to `[-1]` passes the capacity check
(`-1 ≤ 2`), succeeds, and commits `numel_ = -1 < 0`. -/
theorem C6_counterexample_negative_numel :
    (sampleDyn1.internal_resize_contiguous [-1]).1 = Error.Ok ∧
    (sampleDyn1.internal_resize_contiguous [-1]).2.numel_ = -1 ∧
    ¬ 0 ≤ (sampleDyn1.internal_resize_contiguous [-1]).2.numel_ := by
  decide

/-- Claim C6 (amended): `0 ≤ elementCount ≤ capacity` holds after
construction when the initial sizes are all nonnegative, and is preserved by
every resize call, successful or failed, whose `newSizes` entries are all
nonnegative. -/
theorem C6_amended_numel_invariant :
    (∀ (type : Int) (dim : Nat) (sizes : List Int) (data : Nat)
      (dim_order : Option (List Nat)) (strides : Option (List Int))
      (dynamism : TensorShapeDynamism),
      (∀ x ∈ sizes, (0 : Int) ≤ x) →
      0 ≤ (TensorImpl.construct type dim sizes data dim_order strides
        dynamism).numel_ ∧
      (TensorImpl.construct type dim sizes data dim_order strides
        dynamism).numel_ ≤
        (TensorImpl.construct type dim sizes data dim_order strides
          dynamism).numel_bound_) ∧
    (∀ (t : TensorImpl) (ns : List Int),
      0 ≤ t.numel_ → t.numel_ ≤ t.numel_bound_ →
      (∀ x ∈ ns, (0 : Int) ≤ x) →
      0 ≤ (t.internal_resize_contiguous ns).2.numel_ ∧
      (t.internal_resize_contiguous ns).2.numel_ ≤
        (t.internal_resize_contiguous ns).2.numel_bound_) := by
  constructor
  · intro type dim sizes data dim_order strides dynamism hnn
    exact ⟨compute_numel_nonneg sizes dim hnn, le_refl _⟩
  · intro t ns h0 hb hnn
    by_cases hok : (t.internal_resize_contiguous ns).1 = Error.Ok
    · by_cases hdim : t.dim_ = 0
      · rw [resize_rank0_state t ns hdim]
        exact ⟨h0, hb⟩
      · rcases hpol : t.shape_dynamism_ with _ | _ | _
        · rw [resize_static_state t ns hpol]
          exact ⟨h0, hb⟩
        · rcases resize_ok_dynamic_state t ns (Or.inl hpol) hdim hok with
            ⟨hlen, hcap, s, d, _, _, _, hstate⟩
          rw [hstate]
          exact ⟨compute_numel_nonneg ns t.dim_ hnn, hcap⟩
        · rcases resize_ok_dynamic_state t ns (Or.inr hpol) hdim hok with
            ⟨hlen, hcap, s, d, _, _, _, hstate⟩
          rw [hstate]
          exact ⟨compute_numel_nonneg ns t.dim_ hnn, hcap⟩
    · rw [resize_error_state_unchanged t ns hok]
      exact ⟨h0, hb⟩

/-- Witness for amended C6: the invariant is preserved when the dynamic
`[2]` descriptor is resized to `[1]`. -/
theorem C6_amended_numel_invariant_witness :
    0 ≤ (sampleDyn1.internal_resize_contiguous [1]).2.numel_ ∧
    (sampleDyn1.internal_resize_contiguous [1]).2.numel_ ≤
      (sampleDyn1.internal_resize_contiguous [1]).2.numel_bound_ :=
  C6_amended_numel_invariant.2 sampleDyn1 [1] (by decide) (by decide)
    (by decide)

/-- Claim C7: on a rank-0 descriptor, every resize call whose `newSizes` is
empty succeeds, whatever the policy, and leaves the state (sizes, strides,
numel) untouched. -/
theorem C7_rank0_resize_ok (t : TensorImpl) (ns : List Int)
    (hdim : t.dim_ = 0) (hlen : ns.length = 0) :
    t.internal_resize_contiguous ns = (Error.Ok, t) := by
  have h : ns.length = t.dim_ := by rw [hlen, hdim]
  simp [TensorImpl.internal_resize_contiguous, h, hdim]

/-- Witness for C7: the scalar static descriptor accepts the empty resize. -/
theorem C7_rank0_resize_ok_witness :
    sampleScalar.internal_resize_contiguous [] = (Error.Ok, sampleScalar) :=
  C7_rank0_resize_ok sampleScalar [] rfl rfl

/-- Claim C8: for every dynamic-policy descriptor, if resizing to shape `A`,
then to shape `B`, then to `A` again all succeed, the strides after the
final resize are identical to the strides after the first resize to `A`:
stride recomputation is a deterministic function of the sizes and the
(unchanged) dim-order only. -/
theorem C8_stride_roundtrip (t : TensorImpl) (A B : List Int)
    (hpol : t.shape_dynamism_ = TensorShapeDynamism.DYNAMIC_BOUND ∨
      t.shape_dynamism_ = TensorShapeDynamism.DYNAMIC_UNBOUND)
    (h1 : (t.internal_resize_contiguous A).1 = Error.Ok)
    (h2 : ((t.internal_resize_contiguous A).2.internal_resize_contiguous B).1
      = Error.Ok)
    (h3 : (((t.internal_resize_contiguous A).2.internal_resize_contiguous
      B).2.internal_resize_contiguous A).1 = Error.Ok) :
    (((t.internal_resize_contiguous A).2.internal_resize_contiguous
      B).2.internal_resize_contiguous A).2.strides_ =
      (t.internal_resize_contiguous A).2.strides_ := by
  by_cases hdim : t.dim_ = 0
  · have e1 := resize_rank0_state t A hdim
    have e2 : ((t.internal_resize_contiguous A).2.internal_resize_contiguous
        B).2 = t := by
      rw [e1]
      exact resize_rank0_state t B hdim
    rw [e2]
  · obtain ⟨hlen1, hcap1, s0, d0, hs0, hd0, hv0, hst1⟩ :=
      resize_ok_dynamic_state t A hpol hdim h1
    have hr1s : (t.internal_resize_contiguous A).2.strides_ =
        some (stride_list A d0 t.dim_ ++ s0.drop t.dim_) := by rw [hst1]
    have hr1d : (t.internal_resize_contiguous A).2.dim_ = t.dim_ := by
      rw [hst1]
    have hr1do : (t.internal_resize_contiguous A).2.dim_order_ = some d0 := by
      rw [hst1]
      exact hd0
    have hr1pol : (t.internal_resize_contiguous A).2.shape_dynamism_ =
        TensorShapeDynamism.DYNAMIC_BOUND ∨
        (t.internal_resize_contiguous A).2.shape_dynamism_ =
        TensorShapeDynamism.DYNAMIC_UNBOUND := by
      rw [hst1]
      exact hpol
    obtain ⟨hlen2, hcap2, s1, d1, hs1, hd1, hv1, hst2⟩ :=
      resize_ok_dynamic_state _ B hr1pol (by rw [hr1d]; exact hdim) h2
    have hs1v : s1 = stride_list A d0 t.dim_ ++ s0.drop t.dim_ :=
      Option.some.inj (hs1.symm.trans hr1s)
    have hd1v : d1 = d0 := Option.some.inj (hd1.symm.trans hr1do)
    have hr2s : ((t.internal_resize_contiguous A).2.internal_resize_contiguous
        B).2.strides_ =
        some (stride_list B d1 (t.internal_resize_contiguous A).2.dim_ ++
          s1.drop (t.internal_resize_contiguous A).2.dim_) := by
      rw [hst2]
    have hr2d : ((t.internal_resize_contiguous A).2.internal_resize_contiguous
        B).2.dim_ = t.dim_ := by
      rw [hst2]
      exact hr1d
    have hr2do : ((t.internal_resize_contiguous A).2.internal_resize_contiguous
        B).2.dim_order_ = some d0 := by
      rw [hst2]
      exact hr1do
    have hr2pol : ((t.internal_resize_contiguous A).2.internal_resize_contiguous
        B).2.shape_dynamism_ = TensorShapeDynamism.DYNAMIC_BOUND ∨
        ((t.internal_resize_contiguous A).2.internal_resize_contiguous
        B).2.shape_dynamism_ = TensorShapeDynamism.DYNAMIC_UNBOUND := by
      rw [hst2]
      exact hr1pol
    obtain ⟨hlen3, hcap3, s2, d2, hs2, hd2, hv2, hst3⟩ :=
      resize_ok_dynamic_state _ A hr2pol (by rw [hr2d]; exact hdim) h3
    have hs2v : s2 = stride_list B d1 (t.internal_resize_contiguous A).2.dim_ ++
        s1.drop (t.internal_resize_contiguous A).2.dim_ :=
      Option.some.inj (hs2.symm.trans hr2s)
    have hd2v : d2 = d0 := Option.some.inj (hd2.symm.trans hr2do)
    have hr3s : ((((t.internal_resize_contiguous A).2.internal_resize_contiguous
        B).2.internal_resize_contiguous A)).2.strides_ =
        some (stride_list A d2
          ((t.internal_resize_contiguous A).2.internal_resize_contiguous
            B).2.dim_ ++
          s2.drop ((t.internal_resize_contiguous A).2.internal_resize_contiguous
            B).2.dim_) := by
      rw [hst3]
    have e1 : (stride_list A d0 t.dim_ ++ s0.drop t.dim_).drop t.dim_ =
        s0.drop t.dim_ :=
      List.drop_left' (stride_list_length A d0 t.dim_)
    have e2 : (stride_list B d0 t.dim_ ++ s0.drop t.dim_).drop t.dim_ =
        s0.drop t.dim_ :=
      List.drop_left' (stride_list_length B d0 t.dim_)
    rw [hr3s, hd2v, hr2d, hs2v, hd1v, hr1d, hs1v, e1, e2, hr1s]

/-- Witness for C8: the worked-example descriptor resized `[2, 4]`, then
`[3, 4]`, then `[2, 4]` again ends with the strides it had after the first
resize. -/
theorem C8_stride_roundtrip_witness :
    (((sampleDyn.internal_resize_contiguous
      [2, 4]).2.internal_resize_contiguous
      [3, 4]).2.internal_resize_contiguous [2, 4]).2.strides_ =
      (sampleDyn.internal_resize_contiguous [2, 4]).2.strides_ :=
  C8_stride_roundtrip sampleDyn [2, 4] [3, 4] (Or.inl rfl) (by decide)
    (by decide) (by decide)

/-- Claim C10: no resize call, whatever the policy, input or outcome,
changes the rank, the capacity, the element type, the data pointer, or the
dim-order buffer of the descriptor. -/
theorem C10_resize_touches_only_sizes_strides_numel (t : TensorImpl)
    (ns : List Int) :
    (t.internal_resize_contiguous ns).2.dim_ = t.dim_ ∧
    (t.internal_resize_contiguous ns).2.numel_bound_ = t.numel_bound_ ∧
    (t.internal_resize_contiguous ns).2.type_ = t.type_ ∧
    (t.internal_resize_contiguous ns).2.data_ = t.data_ ∧
    (t.internal_resize_contiguous ns).2.dim_order_ = t.dim_order_ :=
  ⟨(resize_frame t ns).1, (resize_frame t ns).2.1, (resize_frame t ns).2.2.1,
    (resize_frame t ns).2.2.2.1, (resize_frame t ns).2.2.2.2.1⟩

/-- Claim C9: each delegate event-tracer hook called with a null tracer
instance has no effect on any tracer state for every argument value, in both
the instrumentation-enabled and the disabled build, and the start hook
returns a default-constructed `EventTracerEntry`; callers never need to
branch on tracer presence. -/
theorem C9_null_tracer_hooks_are_noops {σ T : Type} (enabled : Bool)
    (m : EventTracerMethods σ T) (name : Option String) (id : Nat)
    (entry : EventTracerEntry) (metadata : Option (List Nat))
    (metadata_len start_time end_time : Nat) (output : T) :
    event_tracer_start_profiling_delegate enabled m (none : Option σ) name id
      = (EventTracerEntry.defaultEntry, none) ∧
    event_tracer_end_profiling_delegate enabled m (none : Option σ) entry
      metadata metadata_len = none ∧
    event_tracer_log_profiling_delegate enabled m (none : Option σ) name id
      start_time end_time metadata metadata_len = none ∧
    event_tracer_log_output_delegate enabled m (none : Option σ) name id
      output = none := by
  cases enabled <;> exact ⟨rfl, rfl, rfl, rfl⟩

end Executorch
